import Mathlib

/-!
Shallow embedding of the PowerShell (pwsh) shell backend of the
shell-integration layer (source file: src/shell/pwsh.rs).

The Rust code is a pure text generator: `powershell_escape` escapes a
string for embedding in generated PowerShell code, and the `Shell`
implementation for `Pwsh` produces the activation script, the
deactivation script, and the three environment-mutation fragments
(`set_env`, `prepend_env`, `unset_env`).  Each Rust function is
translated here into a Lean function over `String`.

In addition, small executable models are given for
  * evaluation of a PowerShell single-quoted string literal (needed to
    state the escaping round-trip law),
  * the session-state effect of the hook-registration blocks the
    activation script emits (needed to state chaining/idempotence
    claims), and
  * the exit-code flow of the wrapper function's default branch.
-/

namespace MisePwsh

/-- The character loop of `powershell_escape` (src/shell/pwsh.rs lines
144-169): tab, newline and carriage return become backtick sequences,
a single quote becomes backtick-quote, a backtick is doubled, and every
other character is copied unchanged. -/
def powershellEscapeChars : List Char → String
  | [] => ""
  | c :: rest =>
    (if c = '\t' then "`t"
     else if c = '\n' then "`n"
     else if c = '\r' then "`r"
     else if c = '\'' then "`'"
     else if c = '`' then "``"
     else String.singleton c) ++ powershellEscapeChars rest

/-- `powershell_escape` (src/shell/pwsh.rs lines 136-171):
`needs_escape` is `s.is_empty()`; a non-empty string is returned
unchanged, otherwise the character loop runs over the string. -/
def powershell_escape (s : String) : String :=
  let needs_escape := s.isEmpty
  if !needs_escape then s
  else powershellEscapeChars s.data

/-- `Pwsh::set_env` (src/shell/pwsh.rs lines 112-116). -/
def set_env (k v : String) : String :=
  let k := powershell_escape k
  let v := powershell_escape v
  "$Env:" ++ k ++ "='" ++ v ++ "'\n"

/-- `Pwsh::prepend_env` (src/shell/pwsh.rs lines 118-122). -/
def prepend_env (k v : String) : String :=
  let k := powershell_escape k
  let v := powershell_escape v
  "$Env:" ++ k ++ "='" ++ v ++ "'+[IO.Path]::PathSeparator+$env:" ++ k ++ "\n"

/-- `Pwsh::unset_env` (src/shell/pwsh.rs lines 124-127). -/
def unset_env (k : String) : String :=
  let k := powershell_escape k
  "Remove-Item -Path Env:/" ++ k ++ "\n"

/-- `Pwsh::deactivate` (src/shell/pwsh.rs lines 103-110): the exact
four-line script produced by the `formatdoc!` template. -/
def deactivate : String :=
  "Remove-Item function:mise\nRemove-Item -Path Env:/MISE_SHELL\nRemove-Item -Path Env:/__MISE_WATCH\nRemove-Item -Path Env:/__MISE_DIFF\n"

/-- `ActivateOptions` (the options consumed by `Pwsh::activate`):
`exe` is the executable path after `to_string_lossy`, `flags` the extra
flags string, `no_hook_env` the suppress-auto-hook switch. -/
structure ActivateOptions where
  exe : String
  flags : String
  no_hook_env : Bool

/-- First `formatdoc!` block of `Pwsh::activate` (src/shell/pwsh.rs
lines 18-59) after dedent: session marker, PATH snapshot, and the
`mise` wrapper function, with `{exe}` interpolated. -/
def activateWrapper (exe : String) : String :=
  "$env:MISE_SHELL = 'pwsh'
$env:__MISE_ORIG_PATH = $env:PATH

function mise \x7b

    $code = [System.Management.Automation.Language.Parser]::ParseInput($MyInvocation.Statement.Substring($MyInvocation.OffsetInLine - 1), [ref]$null, [ref]$null)
    $myLine = $code.Find(\x7b $args[0].CommandElements \x7d, $true).CommandElements | ForEach-Object \x7b $_.ToString() \x7d | Join-String -Separator ' '
    $command, [array]$arguments = Invoke-Expression ('Write-Output -- ' + $myLine)
\x20\x20\x20\x20
    if ($null -eq $arguments) \x7b\x20
        & " ++ exe ++ "
        return
    \x7d\x20

    $command = $arguments[0]
    $arguments = $arguments[1..$arguments.Length]

    if ($arguments -contains '--help') \x7b
        return & " ++ exe ++ " $command $arguments\x20
    \x7d

    switch ($command) \x7b
        \x7b $_ -in 'deactivate', 'shell', 'sh' \x7d \x7b
            if ($arguments -contains '-h' -or $arguments -contains '--help') \x7b
                & " ++ exe ++ " $command $arguments
            \x7d
            else \x7b
                & " ++ exe ++ " $command $arguments | Out-String | Invoke-Expression -ErrorAction SilentlyContinue
            \x7d
        \x7d
        default \x7b
            & " ++ exe ++ " $command $arguments
            $status = $LASTEXITCODE
            if ($(Test-Path -Path Function:\\_mise_hook))\x7b
                _mise_hook
            \x7d
            pwsh -NoProfile -Command exit $status #Pass down exit code from mise after _mise_hook
        \x7d
    \x7d
\x7d
"

/-- Second `formatdoc!` block of `Pwsh::activate` (src/shell/pwsh.rs
lines 62-98) after dedent: the `_mise_hook` function, the
directory-change hook registration, the prompt hook registration, and
the initial hook invocation, with `{exe}` and `{flags}` interpolated. -/
def activateHookBlock (exe flags : String) : String :=
  "
function _mise_hook \x7b
    if ($env:MISE_SHELL -eq \"pwsh\")\x7b
        & " ++ exe ++ " hook-env" ++ flags ++ " -s pwsh | Out-String | Invoke-Expression -ErrorAction SilentlyContinue
    \x7d
\x7d

if (-not $__mise_pwsh_previous_chpwd_function)\x7b
    $_mise_chpwd_hook = [EventHandler[System.Management.Automation.LocationChangedEventArgs]] \x7b
        param([object] $source, [System.Management.Automation.LocationChangedEventArgs] $eventArgs)
        end \x7b
            _mise_hook
        \x7d
    \x7d;
    $Global:__mise_pwsh_previous_chpwd_function=$ExecutionContext.SessionState.InvokeCommand.LocationChangedAction;

    if ($__mise_original_pwsh_chpwd_function) \x7b
        $ExecutionContext.SessionState.InvokeCommand.LocationChangedAction = [Delegate]::Combine($__mise_pwsh_previous_chpwd_function, $_mise_chpwd_hook)
    \x7d
    else \x7b
        $ExecutionContext.SessionState.InvokeCommand.LocationChangedAction = $_mise_chpwd_hook
    \x7d
\x7d

if (-not $__mise_pwsh_previous_prompt_function)\x7b
    $global:__mise_pwsh_previous_prompt_function=$function:prompt
    function global:prompt \x7b
        if (Test-Path -Path Function:\\_mise_hook)\x7b
            _mise_hook
        \x7d
        & $__mise_pwsh_previous_prompt_function
    \x7d
\x7d

_mise_hook
"

/-- `Pwsh::activate` (src/shell/pwsh.rs lines 12-101): pushes the
wrapper block, then, when `no_hook_env` is false, appends the hook
block. -/
def activate (opts : ActivateOptions) : String :=
  let exe := opts.exe
  let flags := opts.flags
  let out := activateWrapper exe
  if !opts.no_hook_env then out ++ activateHookBlock exe flags else out

/-! ### Substring search (used to state which artifacts a generated
script mentions) -/

/-- `leadsWith p t` is true when the character list `p` is an initial
segment of `t`. -/
def leadsWith : List Char → List Char → Bool
  | [], _ => true
  | _ :: _, [] => false
  | p :: ps, t :: ts => p == t && leadsWith ps ts

/-- `containsSub p t` is true when `p` occurs as a contiguous substring
of `t`. -/
def containsSub (p : List Char) : List Char → Bool
  | [] => leadsWith p []
  | t :: ts => leadsWith p (t :: ts) || containsSub p ts

/-- String-level wrapper of `containsSub`. -/
def strContains (pat s : String) : Bool := containsSub pat.data s.data

/-! ### Model of PowerShell single-quoted string-literal evaluation

The generated assignments wrap values between `'` characters
(`$Env:K='V'`).  In the PowerShell dialect a single-quoted string
treats every character literally except the quote itself: a doubled
quote `''` denotes one quote character, and a single quote ends the
literal.  `psSingleQuotedBody` consumes the text after an opening
quote and returns the denoted characters when the whole input is
exactly one such literal (closing quote at the very end, no trailing
text); any other input (unterminated literal, or text after the
closing quote) yields `none`. -/
def psSingleQuotedBody : List Char → Option (List Char)
  | [] => none
  | '\'' :: [] => some []
  | '\'' :: '\'' :: rest => (psSingleQuotedBody rest).map (fun t => '\'' :: t)
  | '\'' :: _ :: _ => none
  | c :: rest => (psSingleQuotedBody rest).map (fun t => c :: t)

/-- Evaluation of a full PowerShell single-quoted literal: an opening
quote followed by a body per `psSingleQuotedBody`. -/
def psEvalSingleQuotedLit : List Char → Option (List Char)
  | '\'' :: rest => psSingleQuotedBody rest
  | _ => none

/-- The round-trip law of the spec for the pwsh dialect: escape `s`,
place the result between single quotes, evaluate the literal, and
compare with `s`. -/
def psRoundTrip (s : String) : Bool :=
  psEvalSingleQuotedLit ('\'' :: (powershell_escape s).data ++ ['\'']) == some s.data

/-! ### Model of the hook-registration blocks

The two `if (-not $…_previous_…)` blocks in the hook part of the
activation script mutate four session-global variables of the
evaluating shell.  `PsSession` holds exactly the variables those
blocks read or write; a PowerShell variable that was never assigned
evaluates to `$null`, modelled as `none`, and `-not $x` is true
exactly when `$x` is `$null` (`psTruthy`). -/

/-- A directory-change handler value: a handler installed by some
other tool (`ext`), the `$_mise_chpwd_hook` delegate, or a
`[Delegate]::Combine` of two handlers. -/
inductive PsHandler : Type
  | ext : Nat → PsHandler
  | miseChpwdHook : PsHandler
  | combined : PsHandler → PsHandler → PsHandler
  deriving DecidableEq

/-- A prompt-function value: a prior prompt function (`ext`) or the
`function global:prompt` body defined by the activation script. -/
inductive PsPromptFn : Type
  | ext : Nat → PsPromptFn
  | misePrompt : PsPromptFn
  deriving DecidableEq

/-- The session variables touched by the hook-registration text:
`$__mise_pwsh_previous_chpwd_function`,
`$__mise_original_pwsh_chpwd_function`,
`$ExecutionContext.SessionState.InvokeCommand.LocationChangedAction`,
`$__mise_pwsh_previous_prompt_function` and `$function:prompt`. -/
structure PsSession where
  prevChpwdVar : Option PsHandler
  originalChpwdVar : Option PsHandler
  locationChangedAction : Option PsHandler
  prevPromptVar : Option PsPromptFn
  promptFn : Option PsPromptFn
  deriving DecidableEq

/-- PowerShell truthiness of a possibly-null variable: `$null` is
falsy, any delegate or function object is truthy. -/
def psTruthy {α : Type} : Option α → Bool
  | none => false
  | some _ => true

/-- `[Delegate]::Combine(a, b)`: combining with a `$null` first
argument yields the second argument alone. -/
def delegateCombine : Option PsHandler → PsHandler → PsHandler
  | none, h => h
  | some g, h => .combined g h

/-- Effect of evaluating the directory-change registration block
(src/shell/pwsh.rs lines 70-85): when the guard variable
`$__mise_pwsh_previous_chpwd_function` is falsy, save the current
`LocationChangedAction` into the guard variable, then test
`$__mise_original_pwsh_chpwd_function` — a variable no emitted text
ever assigns — to choose between combining and replacing. -/
def chpwdRegisterBlock (s : PsSession) : PsSession :=
  if psTruthy s.prevChpwdVar then s
  else
    let saved := s.locationChangedAction
    let s1 := { s with prevChpwdVar := saved }
    if psTruthy s1.originalChpwdVar then
      { s1 with locationChangedAction := some (delegateCombine saved PsHandler.miseChpwdHook) }
    else
      { s1 with locationChangedAction := some PsHandler.miseChpwdHook }

/-- Effect of evaluating the prompt registration block
(src/shell/pwsh.rs lines 87-95): when the guard variable
`$__mise_pwsh_previous_prompt_function` is falsy, save the current
prompt function into it and redefine `global:prompt` as the mise
prompt wrapper. -/
def promptRegisterBlock (s : PsSession) : PsSession :=
  if psTruthy s.prevPromptVar then s
  else
    { s with prevPromptVar := s.promptFn, promptFn := some PsPromptFn.misePrompt }

/-- Evaluating the hook-registration part of the activation script
once: the directory-change block, then the prompt block. -/
def evalHookRegistration (s : PsSession) : PsSession :=
  promptRegisterBlock (chpwdRegisterBlock s)

/-! ### Model of the wrapper function's default branch -/

/-- The part of the evaluating shell's state that the default branch
of the `mise` wrapper function reads and writes: `$LASTEXITCODE`, and
whether `Function:\_mise_hook` is currently defined. -/
structure WrapperState where
  lastExitCode : Int
  hookDefined : Bool

/-- Effect of the wrapper's `default` branch (src/shell/pwsh.rs lines
49-56), given the exit code the wrapped command produces (`cmdCode`)
and the exit code the hook invocation would leave in `$LASTEXITCODE`
(`hookCode`): run the command, capture `$status = $LASTEXITCODE`, run
`_mise_hook` only when `Test-Path Function:\_mise_hook` holds, then
run `pwsh -NoProfile -Command exit $status`, which sets
`$LASTEXITCODE` back to the captured status.  Returns the final state
and whether the hook ran. -/
def wrapperDefaultBranch (cmdCode hookCode : Int) (s : WrapperState) : WrapperState × Bool :=
  let s1 : WrapperState := { s with lastExitCode := cmdCode }
  let status := s1.lastExitCode
  let afterHook :=
    if s1.hookDefined then ({ s1 with lastExitCode := hookCode }, true) else (s1, false)
  ({ afterHook.1 with lastExitCode := status }, afterHook.2)

/-! ### Helper lemmas -/

theorem powershell_escape_eq_self (s : String) : powershell_escape s = s := by
  by_cases h : s.isEmpty
  · have hs : s = "" := (String.isEmpty_iff s).mp h
    subst hs; rfl
  · simp [powershell_escape, h]

theorem powershellEscapeChars_length_le (cs : List Char) :
    (powershellEscapeChars cs).length ≤ 2 * cs.length := by
  induction cs with
  | nil => simp [powershellEscapeChars]
  | cons c rest ih =>
    have hhead :
        (if c = '\t' then "`t"
         else if c = '\n' then "`n"
         else if c = '\r' then "`r"
         else if c = '\'' then "`'"
         else if c = '`' then "``"
         else String.singleton c).length ≤ 2 := by
      split_ifs <;> first | decide | simp [String.length_singleton]
    calc (powershellEscapeChars (c :: rest)).length
        = (if c = '\t' then "`t"
           else if c = '\n' then "`n"
           else if c = '\r' then "`r"
           else if c = '\'' then "`'"
           else if c = '`' then "``"
           else String.singleton c).length + (powershellEscapeChars rest).length := by
          simp [powershellEscapeChars, String.length_append]
      _ ≤ 2 + 2 * rest.length := Nat.add_le_add hhead ih
      _ ≤ 2 * (rest.length + 1) := by omega
      _ = 2 * (c :: rest).length := by rw [List.length_cons]

/-! ### Claim theorems -/

/-- Claim C1: the spec's round-trip law fails on the code.  The claim
states that `powershell_escape(s)` placed between single quotes and
evaluated by PowerShell reproduces `s` for every `s`, and that a quote
or backtick in `s` gets escaped.  In the code `needs_escape` tests
only emptiness, so the one-character string consisting of a single
quote is returned unchanged and the wrapped text `'''` is not a valid
single literal denoting that string (the round trip fails), and a
backtick is likewise not doubled.  The sanity conjunct shows the
round trip does hold for a quote-free string, so the evaluation model
itself is not vacuous. -/
theorem escape_quote_unescaped_breaks_roundtrip :
    powershell_escape "'" = "'" ∧
    powershell_escape "`" = "`" ∧
    psRoundTrip "'" = false ∧
    psRoundTrip "ab" = true := by
  refine ⟨rfl, rfl, ?_, ?_⟩ <;> decide

/-- Claim C6: `powershell_escape` returns every non-empty string
unchanged, so `set_env` and `prepend_env` embed every non-empty key
and value verbatim between the single quotes of the emitted
assignment line, quotes and backticks in the value included. -/
theorem nonempty_escape_identity_and_verbatim_embedding
    (s k v : String) (hs : s ≠ "") (hk : k ≠ "") (hv : v ≠ "") :
    powershell_escape s = s ∧
    set_env k v = "$Env:" ++ k ++ "='" ++ v ++ "'\n" ∧
    prepend_env k v = "$Env:" ++ k ++ "='" ++ v ++ "'+[IO.Path]::PathSeparator+$env:" ++ k ++ "\n" := by
  refine ⟨powershell_escape_eq_self s, ?_, ?_⟩
  · simp [set_env, powershell_escape_eq_self]
  · simp [prepend_env, powershell_escape_eq_self]

/-- Witness for C6 at a key and a value containing a quote and a
backtick. -/
theorem nonempty_escape_identity_witness :
    powershell_escape "a'b" = "a'b" ∧
    set_env "FOO" "x'`y" = "$Env:" ++ "FOO" ++ "='" ++ "x'`y" ++ "'\n" ∧
    prepend_env "FOO" "x'`y" =
      "$Env:" ++ "FOO" ++ "='" ++ "x'`y" ++ "'+[IO.Path]::PathSeparator+$env:" ++ "FOO" ++ "\n" :=
  nonempty_escape_identity_and_verbatim_embedding "a'b" "FOO" "x'`y"
    (by decide) (by decide) (by decide)

/-- Claim C9: `set_env "FOO" "1"` is exactly the single line
`$Env:FOO='1'` followed by a newline. -/
theorem set_env_foo_literal : set_env "FOO" "1" = "$Env:FOO='1'\n" := by decide

/-- Claim C10: `powershell_escape` is total: it is a function defined
on every string, and its result is of bounded size — at most two
output characters per input character, both through the identity path
taken by non-empty strings and through the character-translation loop
(`powershellEscapeChars`) on any character list, control characters
included. -/
theorem powershell_escape_total (s : String) (cs : List Char) :
    (powershell_escape s).length ≤ 2 * s.length ∧
    (powershellEscapeChars cs).length ≤ 2 * cs.length := by
  refine ⟨?_, powershellEscapeChars_length_le cs⟩
  rw [powershell_escape_eq_self]
  omega

/-- Claim C8 counterexample: the claim's "for every key k and value v,
prepend_env(k, v) returns exactly one line" fails on the code.  Since
`powershell_escape` returns every non-empty string unchanged, a value
containing a newline is embedded verbatim between the single quotes,
and the emitted text spans two lines: at the concrete input
`prepend_env "PATH" "a\nb"` the output contains two newline
characters, not one. -/
theorem prepend_env_newline_value_not_one_line :
    (prepend_env "PATH" "a\nb").data.count '\n' = 2 ∧
    prepend_env "PATH" "a\nb" =
      "$Env:PATH='a\nb'+[IO.Path]::PathSeparator+$env:PATH\n" := by
  refine ⟨?_, ?_⟩ <;> decide

/-- Claim C8 (amended): for every key `k` and value `v` free of
newline characters, `prepend_env k v` is exactly one line assigning `k` to
the escaped value, then `[IO.Path]::PathSeparator` (the platform path
separator), then the runtime reference `$env:k` resolved by the shell
at evaluation time: the output contains exactly one newline, the
terminator of that single line; a key or value containing a newline
is embedded verbatim and the output then spans several lines. -/
theorem prepend_env_one_line_runtime_reference
    (k v : String) (hk : '\n' ∉ k.data) (hv : '\n' ∉ v.data) :
    prepend_env k v = "$Env:" ++ k ++ "='" ++ v ++ "'+[IO.Path]::PathSeparator+$env:" ++ k ++ "\n" ∧
    (prepend_env k v).data.count '\n' = 1 := by
  have h1 : prepend_env k v =
      "$Env:" ++ k ++ "='" ++ v ++ "'+[IO.Path]::PathSeparator+$env:" ++ k ++ "\n" := by
    simp [prepend_env, powershell_escape_eq_self]
  refine ⟨h1, ?_⟩
  rw [h1]
  simp only [String.data_append, List.count_append]
  rw [List.count_eq_zero.mpr hk, List.count_eq_zero.mpr hv]
  decide

/-- Witness for C8 at the spec's concrete scenario
`emitPrepend("PATH", "/some/dir:/2/dir")`. -/
theorem prepend_env_one_line_witness :
    prepend_env "PATH" "/some/dir:/2/dir" =
      "$Env:" ++ "PATH" ++ "='" ++ "/some/dir:/2/dir" ++ "'+[IO.Path]::PathSeparator+$env:" ++ "PATH" ++ "\n" ∧
    (prepend_env "PATH" "/some/dir:/2/dir").data.count '\n' = 1 :=
  prepend_env_one_line_runtime_reference "PATH" "/some/dir:/2/dir" (by decide) (by decide)

/-- Claim C2 counterexample: the deactivation script does not reverse
every side effect activation can install.  Any script text that
removes the `_mise_hook` function, restores a saved
`LocationChangedAction` or prompt hook, or clears the
`__MISE_ORIG_PATH` PATH snapshot has to name those artifacts, and the
text returned by `deactivate` never mentions them. -/
theorem deactivate_omits_hook_removal :
    strContains "_mise_hook" deactivate = false ∧
    strContains "__MISE_ORIG_PATH" deactivate = false ∧
    strContains "LocationChangedAction" deactivate = false ∧
    strContains "prompt" deactivate = false := by
  refine ⟨?_, ?_, ?_, ?_⟩ <;> decide

/-- Claim C2 (amended): `deactivate` returns exactly the four-line
script that removes the `mise` wrapper function and clears the
session marker `MISE_SHELL` and the diff-tracking variables
`__MISE_WATCH` and `__MISE_DIFF`; it removes no hook function,
restores no prior hook, and leaves `__MISE_ORIG_PATH` set. -/
theorem deactivate_exact_script :
    deactivate =
      "Remove-Item function:mise\nRemove-Item -Path Env:/MISE_SHELL\nRemove-Item -Path Env:/__MISE_WATCH\nRemove-Item -Path Env:/__MISE_DIFF\n" ∧
    strContains "function:mise" deactivate = true ∧
    strContains "MISE_SHELL" deactivate = true ∧
    strContains "__MISE_WATCH" deactivate = true ∧
    strContains "__MISE_DIFF" deactivate = true := by
  refine ⟨rfl, ?_, ?_, ?_, ?_⟩ <;> decide

set_option maxRecDepth 100000 in
/-- Claim C3: the directory-change registration does not chain a
prior hook.  In a session whose `LocationChangedAction` holds a
handler installed by another tool (`PsHandler.ext 0`) and where the
mise globals are unset, evaluating the directory-change block saves
the prior handler into `$__mise_pwsh_previous_chpwd_function` but
then replaces `LocationChangedAction` with the mise hook alone — the
`[Delegate]::Combine` branch is guarded by
`$__mise_original_pwsh_chpwd_function`, a variable the emitted text
never assigns: the script contains no assignment
`__mise_original_pwsh_chpwd_function=` (or with a space before `=`),
while it does assign `$Global:__mise_pwsh_previous_chpwd_function=`. -/
theorem chpwd_registration_drops_prior_hook :
    (chpwdRegisterBlock ⟨none, none, some (PsHandler.ext 0), none, some (PsPromptFn.ext 1)⟩).prevChpwdVar
        = some (PsHandler.ext 0) ∧
    (chpwdRegisterBlock ⟨none, none, some (PsHandler.ext 0), none, some (PsPromptFn.ext 1)⟩).locationChangedAction
        = some PsHandler.miseChpwdHook ∧
    strContains "__mise_original_pwsh_chpwd_function=" (activate ⟨"/some/dir/mise", " --status", false⟩) = false ∧
    strContains "__mise_original_pwsh_chpwd_function =" (activate ⟨"/some/dir/mise", " --status", false⟩) = false ∧
    strContains "$Global:__mise_pwsh_previous_chpwd_function=" (activate ⟨"/some/dir/mise", " --status", false⟩) = true := by
  refine ⟨rfl, rfl, ?_, ?_, ?_⟩ <;> decide

/-- Claim C4 counterexample: hook registration is not idempotent in
every initial session state.  In a fresh session with no prior
directory-change handler and no prior prompt function, the first
evaluation stores `$null` in both guard variables, so the second
evaluation observes the guards as unset and re-runs both blocks: the
session state after two evaluations differs from the state after one,
and the saved "previous" prompt function after the second evaluation
is mise's own prompt wrapper, chaining the hook behind itself. -/
theorem fresh_session_hook_reregistered :
    evalHookRegistration (evalHookRegistration ⟨none, none, none, none, none⟩)
        ≠ evalHookRegistration ⟨none, none, none, none, none⟩ ∧
    (evalHookRegistration (evalHookRegistration ⟨none, none, none, none, none⟩)).prevPromptVar
        = some PsPromptFn.misePrompt := by
  refine ⟨?_, rfl⟩
  decide

/-- Claim C4 (amended): evaluating the hook-registration text twice
registers each hook at most once — the second evaluation is a no-op —
in every initial session state where a prior directory-change handler
and a prior prompt function exist (or where the corresponding guard
variable is already set); in a fresh session with neither, the guard
is set to `$null` and the second evaluation re-runs the blocks. -/
theorem hook_registration_idempotent_given_prior_hooks (s : PsSession)
    (h1 : psTruthy s.prevChpwdVar = true ∨ psTruthy s.locationChangedAction = true)
    (h2 : psTruthy s.prevPromptVar = true ∨ psTruthy s.promptFn = true) :
    evalHookRegistration (evalHookRegistration s) = evalHookRegistration s := by
  obtain ⟨pc, oc, lca, pp, pf⟩ := s
  cases pc <;> cases pp <;> cases lca <;> cases pf <;> cases oc <;>
    simp_all [evalHookRegistration, chpwdRegisterBlock, promptRegisterBlock, psTruthy,
      delegateCombine]

/-- Witness for the amended C4 in a session where another tool had
installed both a directory-change handler and a prompt function. -/
theorem hook_registration_idempotent_witness :
    evalHookRegistration (evalHookRegistration
        ⟨none, none, some (PsHandler.ext 0), none, some (PsPromptFn.ext 1)⟩)
      = evalHookRegistration ⟨none, none, some (PsHandler.ext 0), none, some (PsPromptFn.ext 1)⟩ :=
  hook_registration_idempotent_given_prior_hooks
    ⟨none, none, some (PsHandler.ext 0), none, some (PsPromptFn.ext 1)⟩
    (Or.inr rfl) (Or.inr rfl)

/-- Claim C5: in the wrapper's default branch the wrapped command's
exit status is captured into `$status` before the hook runs, and is
re-established afterwards by `pwsh -NoProfile -Command exit $status`,
so the final `$LASTEXITCODE` equals the wrapped command's code no
matter what the hook leaves there; and the hook runs exactly when
`Function:\_mise_hook` is defined at call time. -/
theorem wrapper_default_branch_preserves_exit_code
    (cmdCode hookCode : Int) (s : WrapperState) :
    (wrapperDefaultBranch cmdCode hookCode s).1.lastExitCode = cmdCode ∧
    (wrapperDefaultBranch cmdCode hookCode s).2 = s.hookDefined := by
  cases hs : s.hookDefined <;> simp [wrapperDefaultBranch, hs]

set_option maxRecDepth 400000 in
set_option maxHeartbeats 1000000 in
/-- Claim C7: with `no_hook_env` set, `activate` returns only the
session-marker/PATH-snapshot lines and the wrapper function
definition (the first template block), and with it unset the hook
block is appended to that same prefix.  At the snapshot-test inputs
(`/some/dir/mise`, `" --status"`), the suppressed output contains no
hook function definition, no directory-change or prompt hook
registration, and no column-zero initial `_mise_hook` invocation
line, while the unsuppressed output contains all of them. -/
theorem activate_no_hook_env_omits_hook_parts :
    (∀ exe flags, activate ⟨exe, flags, true⟩ = activateWrapper exe) ∧
    (∀ exe flags, activate ⟨exe, flags, false⟩ =
        activate ⟨exe, flags, true⟩ ++ activateHookBlock exe flags) ∧
    strContains "function _mise_hook" (activate ⟨"/some/dir/mise", " --status", true⟩) = false ∧
    strContains "LocationChangedAction" (activate ⟨"/some/dir/mise", " --status", true⟩) = false ∧
    strContains "function global:prompt" (activate ⟨"/some/dir/mise", " --status", true⟩) = false ∧
    strContains "\n_mise_hook\n" (activate ⟨"/some/dir/mise", " --status", true⟩) = false ∧
    strContains "function _mise_hook" (activate ⟨"/some/dir/mise", " --status", false⟩) = true ∧
    strContains "LocationChangedAction" (activate ⟨"/some/dir/mise", " --status", false⟩) = true ∧
    strContains "function global:prompt" (activate ⟨"/some/dir/mise", " --status", false⟩) = true ∧
    strContains "\n_mise_hook\n" (activate ⟨"/some/dir/mise", " --status", false⟩) = true := by
  refine ⟨fun exe flags => rfl, fun exe flags => rfl, ?_, ?_, ?_, ?_, ?_, ?_, ?_, ?_⟩ <;> decide

end MisePwsh
